import Mathlib

/-!
Verification development for the honey-quality ETL pipeline.

Shallow embedding of the rule-based quality assessment engine:
the ETL processor's business-rule validation and tiered quality scoring
(`industrial_etl.py`), the unified generator's target-deviation scoring and
its category / compliance classifiers (`unified_powerbi_generator.py`), the
batch orchestrator (`run_etl_pipeline`) with its failure semantics, and the
monitoring layer's performance-alert checks (`monitoring_system.py`).

Numeric fields are modelled as rationals; timestamps are modelled as
rational time points supplied by the environment (start/end of a run).
Collaborator effects (file extraction, database writes) are modelled as
explicit parameters carrying their success-or-error result.
-/

set_option maxHeartbeats 1000000

/-- A raw input record as produced by extraction: the four measured fields
may be missing (`dropna` removes records with any missing field).
Identity/metadata columns are not modelled; the core never branches on them. -/
structure RawRecord where
  moisture : Option ℚ
  ph : Option ℚ
  diastase_activity : Option ℚ
  h_m_f : Option ℚ
deriving DecidableEq, Repr

/-- A clean record: all four measured parameters present. -/
structure Record where
  moisture : ℚ
  ph : ℚ
  diastase_activity : ℚ
  h_m_f : ℚ
deriving DecidableEq, Repr

namespace IndustrialETL

/-- A min/max acceptance range for one parameter (`business_rules` entry with
both `min` and `max` keys, as for moisture and ph). -/
structure RangeRule where
  min : ℚ
  max : ℚ
deriving DecidableEq, Repr

/-- The `business_rules` configuration of `ETLConfig`: each rule is optional
(the code guards every use with `if 'param' in rules`). Moisture and ph carry
min/max ranges; diastase_activity carries only a min; h_m_f only a max —
this is the shape every access in the code assumes. -/
structure BusinessRules where
  moisture : Option RangeRule
  ph : Option RangeRule
  diastase_activity : Option ℚ
  h_m_f : Option ℚ
deriving DecidableEq, Repr

/-- The default `business_rules` from `_load_config`'s fallback configuration. -/
def default_business_rules : BusinessRules :=
  { moisture := some ⟨15, 20⟩
    ph := some ⟨3.5, 6.5⟩
    diastase_activity := some 8
    h_m_f := some 40 }

/-- Moisture block of `_calculate_quality_score`: 0 within [min,max],
5 within [min-1, max+1], otherwise 15; 0 when no moisture rule is configured. -/
def moisture_penalty (rule : Option RangeRule) (moisture : ℚ) : ℚ :=
  match rule with
  | none => 0
  | some r =>
    if r.min ≤ moisture ∧ moisture ≤ r.max then 0
    else if r.min - 1 ≤ moisture ∧ moisture ≤ r.max + 1 then 5
    else 15

/-- pH block of `_calculate_quality_score`: 0 within [min,max],
5 within [min-0.5, max+0.5], otherwise 15. -/
def ph_penalty (rule : Option RangeRule) (ph : ℚ) : ℚ :=
  match rule with
  | none => 0
  | some r =>
    if r.min ≤ ph ∧ ph ≤ r.max then 0
    else if r.min - 0.5 ≤ ph ∧ ph ≤ r.max + 0.5 then 5
    else 15

/-- Diastase-activity block of `_calculate_quality_score`: 0 at or above min,
5 at or above min-2, otherwise 15. -/
def diastase_penalty (rule : Option ℚ) (activity : ℚ) : ℚ :=
  match rule with
  | none => 0
  | some min_val =>
    if activity ≥ min_val then 0
    else if activity ≥ min_val - 2 then 5
    else 15

/-- HMF block of `_calculate_quality_score`: 0 at or below max,
5 at or below max+10, otherwise 15. -/
def hmf_penalty (rule : Option ℚ) (hmf : ℚ) : ℚ :=
  match rule with
  | none => 0
  | some max_val =>
    if hmf ≤ max_val then 0
    else if hmf ≤ max_val + 10 then 5
    else 15

/-- `IndustrialETLProcessor._calculate_quality_score`: start at 100.0, subtract
the four per-parameter penalties, clamp the result to a minimum of 0.0. -/
def calculate_quality_score (rules : BusinessRules) (row : Record) : ℚ :=
  let score : ℚ := 100
  let score := score - moisture_penalty rules.moisture row.moisture
  let score := score - ph_penalty rules.ph row.ph
  let score := score - diastase_penalty rules.diastase_activity row.diastase_activity
  let score := score - hmf_penalty rules.h_m_f row.h_m_f
  max 0 score

/-- The record-level predicate of `_apply_business_rules`: true when every
configured rule's hard bound is satisfied. -/
def passes_business_rules (rules : BusinessRules) (row : Record) : Bool :=
  (match rules.moisture with
   | none => true
   | some r => decide (r.min ≤ row.moisture ∧ row.moisture ≤ r.max)) &&
  (match rules.ph with
   | none => true
   | some r => decide (r.min ≤ row.ph ∧ row.ph ≤ r.max)) &&
  (match rules.diastase_activity with
   | none => true
   | some m => decide (row.diastase_activity ≥ m)) &&
  (match rules.h_m_f with
   | none => true
   | some m => decide (row.h_m_f ≤ m))

/-- `IndustrialETLProcessor._apply_business_rules`: successive DataFrame
filters, one per configured rule. -/
def apply_business_rules (rules : BusinessRules) (data : List Record) : List Record :=
  let data := match rules.moisture with
    | none => data
    | some r => data.filter (fun x => decide (r.min ≤ x.moisture ∧ x.moisture ≤ r.max))
  let data := match rules.ph with
    | none => data
    | some r => data.filter (fun x => decide (r.min ≤ x.ph ∧ x.ph ≤ r.max))
  let data := match rules.diastase_activity with
    | none => data
    | some m => data.filter (fun x => decide (x.diastase_activity ≥ m))
  let data := match rules.h_m_f with
    | none => data
    | some m => data.filter (fun x => decide (x.h_m_f ≤ m))
  data

/-- `IndustrialETLProcessor._categorize_quality`: descending thresholds
90 / 80 / 70, inclusive lower bounds. -/
def categorize_quality (score : ℚ) : String :=
  if score ≥ 90 then "Excellent"
  else if score ≥ 80 then "Good"
  else if score ≥ 70 then "Fair"
  else "Poor"

/-- A record augmented with the derived quality columns that
`transform_data` appends (`processed_at` is wall-clock metadata, not
modelled). -/
structure ScoredRecord where
  row : Record
  quality_score : ℚ
  quality_category : String
deriving DecidableEq, Repr

/-- The `dropna(subset=[moisture, ph, diastase_activity, h_m_f])` cleaning step
of `transform_data`: keep exactly the records with all four fields present. -/
def dropna (data : List RawRecord) : List Record :=
  data.filterMap fun r =>
    match r.moisture, r.ph, r.diastase_activity, r.h_m_f with
    | some m, some p, some d, some h => some ⟨m, p, d, h⟩
    | _, _, _, _ => none

/-- `IndustrialETLProcessor.transform_data`: dropna, then business-rule
validation, then per-record scoring and categorization. -/
def transform_data (rules : BusinessRules) (data : List RawRecord) : List ScoredRecord :=
  let cleaned := dropna data
  let validated := apply_business_rules rules cleaned
  validated.map fun r =>
    { row := r
      quality_score := calculate_quality_score rules r
      quality_category := categorize_quality (calculate_quality_score rules r) }

/-- `IndustrialETLProcessor.load_data`: returns False when the database engine
is unavailable; otherwise performs the `to_sql` write and Redis caching inside
a try/except, returning True on success and False on any exception (the
exception is logged, not re-raised). `side_effects` carries the combined
result of those effectful calls. -/
def load_data (db_available : Bool) (side_effects : Except String Unit)
    (_data : List ScoredRecord) : Bool :=
  if db_available then
    match side_effects with
    | .ok _ => true
    | .error _ => false
  else false

/-- The result dict of `run_etl_pipeline`: `error` is present only on the
exception path; `rows_processed` only on the non-exception path. -/
structure ETLOutcome where
  status : String
  error : Option String
  duration_seconds : ℚ
  rows_processed : Option Nat
deriving DecidableEq, Repr

/-- `IndustrialETLProcessor.run_etl_pipeline`: extract, transform, load inside
one try/except. Any exception from extract or transform is caught and turned
into a "failed" result carrying `str(e)`; otherwise the status is "success"
exactly when `load_data` returned True. The stages are parameters carrying
their possibly-raising results; `start_time`/`end_time` are the two
`datetime.now()` readings, so the reported duration is their difference. -/
def run_etl_pipeline (extract_result : Except String (List RawRecord))
    (transform : List RawRecord → Except String (List ScoredRecord))
    (load : List ScoredRecord → Bool)
    (start_time end_time : ℚ) : ETLOutcome :=
  match extract_result with
  | .error e =>
    { status := "failed", error := some e
      duration_seconds := end_time - start_time, rows_processed := none }
  | .ok data =>
    match transform data with
    | .error e =>
      { status := "failed", error := some e
        duration_seconds := end_time - start_time, rows_processed := none }
    | .ok transformed =>
      let load_success := load transformed
      { status := if load_success then "success" else "failed"
        error := none
        duration_seconds := end_time - start_time
        rows_processed := some transformed.length }

/-- The transform stage as invoked by `run_etl_pipeline` on this model:
the embedded `transform_data` is a total function, so it never raises. -/
def transform_stage (rules : BusinessRules) (data : List RawRecord) :
    Except String (List ScoredRecord) :=
  .ok (transform_data rules data)

end IndustrialETL

namespace UnifiedPowerBI

/-- Moisture block of `UnifiedPowerBIGenerator._calculate_quality_score`:
absolute deviation from the 17.5 target, tiers 1.0 / 2.0 / 3.0 with penalties
0 / 5 / 10 / 20. -/
def moisture_penalty (moisture : ℚ) : ℚ :=
  let moisture_dev := |moisture - 17.5|
  if moisture_dev ≤ 1 then 0
  else if moisture_dev ≤ 2 then 5
  else if moisture_dev ≤ 3 then 10
  else 20

/-- pH block: absolute deviation from the 5.0 target, tiers 0.5 / 1.0 / 1.5
with penalties 0 / 5 / 10 / 20. -/
def ph_penalty (ph : ℚ) : ℚ :=
  let ph_dev := |ph - 5|
  if ph_dev ≤ 0.5 then 0
  else if ph_dev ≤ 1 then 5
  else if ph_dev ≤ 1.5 then 10
  else 20

/-- Diastase-activity block: 0 at or above 8.0, 5 at or above 6.0,
otherwise 15. -/
def diastase_penalty (activity : ℚ) : ℚ :=
  if activity ≥ 8 then 0
  else if activity ≥ 6 then 5
  else 15

/-- HMF block: 0 at or below 40.0, 5 at or below 50.0, otherwise 15. -/
def hmf_penalty (hmf : ℚ) : ℚ :=
  if hmf ≤ 40 then 0
  else if hmf ≤ 50 then 5
  else 15

/-- `UnifiedPowerBIGenerator._calculate_quality_score`: start at 100.0,
subtract the four target-deviation penalties, clamp to a minimum of 0.0. -/
def calculate_quality_score (row : Record) : ℚ :=
  let score : ℚ := 100
  let score := score - moisture_penalty row.moisture
  let score := score - ph_penalty row.ph
  let score := score - diastase_penalty row.diastase_activity
  let score := score - hmf_penalty row.h_m_f
  max 0 score

/-- `UnifiedPowerBIGenerator._categorize_quality`: descending thresholds
95 / 90 / 80 / 70, inclusive lower bounds. -/
def categorize_quality (score : ℚ) : String :=
  if score ≥ 95 then "Premium"
  else if score ≥ 90 then "Excellent"
  else if score ≥ 80 then "Good"
  else if score ≥ 70 then "Fair"
  else "Poor"

/-- `UnifiedPowerBIGenerator._get_compliance_status`: thresholds 80 / 70,
inclusive lower bounds. -/
def get_compliance_status (score : ℚ) : String :=
  if score ≥ 80 then "Compliant"
  else if score ≥ 70 then "Warning"
  else "Non-Compliant"

end UnifiedPowerBI

namespace Monitoring

/-- An alert dict appended by `_check_performance_alerts`. The Python message
interpolates the observed value into the text; here the static message prefix
and the observed value are carried in separate fields (`timestamp` is
wall-clock metadata, not modelled). -/
structure Alert where
  type : String
  severity : String
  message : String
  observed : ℚ
deriving DecidableEq, Repr

/-- `MonitoringSystem._check_performance_alerts`: when psutil is available,
append one CPU alert when cpu_percent is strictly above 80 and one memory
alert when memory.percent is strictly above 85; otherwise no alerts. The
observed percentages are parameters carrying the psutil readings. -/
def check_performance_alerts (psutil_available : Bool)
    (cpu_percent memory_percent : ℚ) : List Alert :=
  if psutil_available then
    (if cpu_percent > 80 then
      [{ type := "performance_degradation", severity := "warning"
         message := "High CPU usage", observed := cpu_percent }]
     else []) ++
    (if memory_percent > 85 then
      [{ type := "performance_degradation", severity := "warning"
         message := "High memory usage", observed := memory_percent }]
     else [])
  else []

end Monitoring

/-! ## Helper lemmas -/

lemma moisture_penalty_bounds (rule : Option IndustrialETL.RangeRule) (m : ℚ) :
    0 ≤ IndustrialETL.moisture_penalty rule m ∧ IndustrialETL.moisture_penalty rule m ≤ 15 := by
  cases rule with
  | none => simp [IndustrialETL.moisture_penalty]
  | some r =>
    simp only [IndustrialETL.moisture_penalty]
    split_ifs <;> norm_num

lemma ph_penalty_bounds (rule : Option IndustrialETL.RangeRule) (p : ℚ) :
    0 ≤ IndustrialETL.ph_penalty rule p ∧ IndustrialETL.ph_penalty rule p ≤ 15 := by
  cases rule with
  | none => simp [IndustrialETL.ph_penalty]
  | some r =>
    simp only [IndustrialETL.ph_penalty]
    split_ifs <;> norm_num

lemma diastase_penalty_bounds (rule : Option ℚ) (a : ℚ) :
    0 ≤ IndustrialETL.diastase_penalty rule a ∧ IndustrialETL.diastase_penalty rule a ≤ 15 := by
  cases rule with
  | none => simp [IndustrialETL.diastase_penalty]
  | some m =>
    simp only [IndustrialETL.diastase_penalty]
    split_ifs <;> norm_num

lemma hmf_penalty_bounds (rule : Option ℚ) (h : ℚ) :
    0 ≤ IndustrialETL.hmf_penalty rule h ∧ IndustrialETL.hmf_penalty rule h ≤ 15 := by
  cases rule with
  | none => simp [IndustrialETL.hmf_penalty]
  | some m =>
    simp only [IndustrialETL.hmf_penalty]
    split_ifs <;> norm_num

lemma etl_score_eq (rules : IndustrialETL.BusinessRules) (row : Record) :
    IndustrialETL.calculate_quality_score rules row =
      max 0 (100 - IndustrialETL.moisture_penalty rules.moisture row.moisture
        - IndustrialETL.ph_penalty rules.ph row.ph
        - IndustrialETL.diastase_penalty rules.diastase_activity row.diastase_activity
        - IndustrialETL.hmf_penalty rules.h_m_f row.h_m_f) := rfl

lemma unified_moisture_penalty_bounds (m : ℚ) :
    0 ≤ UnifiedPowerBI.moisture_penalty m ∧ UnifiedPowerBI.moisture_penalty m ≤ 20 := by
  simp only [UnifiedPowerBI.moisture_penalty]
  split_ifs <;> norm_num

lemma unified_ph_penalty_bounds (p : ℚ) :
    0 ≤ UnifiedPowerBI.ph_penalty p ∧ UnifiedPowerBI.ph_penalty p ≤ 20 := by
  simp only [UnifiedPowerBI.ph_penalty]
  split_ifs <;> norm_num

lemma unified_diastase_penalty_bounds (a : ℚ) :
    0 ≤ UnifiedPowerBI.diastase_penalty a ∧ UnifiedPowerBI.diastase_penalty a ≤ 15 := by
  simp only [UnifiedPowerBI.diastase_penalty]
  split_ifs <;> norm_num

lemma unified_hmf_penalty_bounds (h : ℚ) :
    0 ≤ UnifiedPowerBI.hmf_penalty h ∧ UnifiedPowerBI.hmf_penalty h ≤ 15 := by
  simp only [UnifiedPowerBI.hmf_penalty]
  split_ifs <;> norm_num

lemma unified_score_eq (row : Record) :
    UnifiedPowerBI.calculate_quality_score row =
      max 0 (100 - UnifiedPowerBI.moisture_penalty row.moisture
        - UnifiedPowerBI.ph_penalty row.ph
        - UnifiedPowerBI.diastase_penalty row.diastase_activity
        - UnifiedPowerBI.hmf_penalty row.h_m_f) := rfl

lemma moisture_penalty_eq_zero_of_pass (rule : Option IndustrialETL.RangeRule) (m : ℚ)
    (h : (match rule with
          | none => true
          | some r => decide (r.min ≤ m ∧ m ≤ r.max)) = true) :
    IndustrialETL.moisture_penalty rule m = 0 := by
  cases rule with
  | none => rfl
  | some r =>
    simp only [decide_eq_true_eq] at h
    simp only [IndustrialETL.moisture_penalty]
    rw [if_pos h]

lemma ph_penalty_eq_zero_of_pass (rule : Option IndustrialETL.RangeRule) (p : ℚ)
    (h : (match rule with
          | none => true
          | some r => decide (r.min ≤ p ∧ p ≤ r.max)) = true) :
    IndustrialETL.ph_penalty rule p = 0 := by
  cases rule with
  | none => rfl
  | some r =>
    simp only [decide_eq_true_eq] at h
    simp only [IndustrialETL.ph_penalty]
    rw [if_pos h]

lemma diastase_penalty_eq_zero_of_pass (rule : Option ℚ) (a : ℚ)
    (h : (match rule with
          | none => true
          | some m => decide (a ≥ m)) = true) :
    IndustrialETL.diastase_penalty rule a = 0 := by
  cases rule with
  | none => rfl
  | some m =>
    simp only [decide_eq_true_eq] at h
    simp only [IndustrialETL.diastase_penalty]
    rw [if_pos h]

lemma hmf_penalty_eq_zero_of_pass (rule : Option ℚ) (hv : ℚ)
    (h : (match rule with
          | none => true
          | some m => decide (hv ≤ m)) = true) :
    IndustrialETL.hmf_penalty rule hv = 0 := by
  cases rule with
  | none => rfl
  | some m =>
    simp only [decide_eq_true_eq] at h
    simp only [IndustrialETL.hmf_penalty]
    rw [if_pos h]

/-- A record that satisfies every configured hard bound incurs zero penalty on
every parameter, so the ETL quality score is exactly 100. -/
lemma score_eq_100_of_passes (rules : IndustrialETL.BusinessRules) (row : Record)
    (h : IndustrialETL.passes_business_rules rules row = true) :
    IndustrialETL.calculate_quality_score rules row = 100 := by
  unfold IndustrialETL.passes_business_rules at h
  simp only [Bool.and_eq_true] at h
  obtain ⟨⟨⟨hm, hp⟩, hd⟩, hh⟩ := h
  rw [etl_score_eq,
    moisture_penalty_eq_zero_of_pass rules.moisture row.moisture hm,
    ph_penalty_eq_zero_of_pass rules.ph row.ph hp,
    diastase_penalty_eq_zero_of_pass rules.diastase_activity row.diastase_activity hd,
    hmf_penalty_eq_zero_of_pass rules.h_m_f row.h_m_f hh]
  norm_num

/-! ## Claims -/

/-- C1: the ETL quality score is deterministic (two evaluations of the same
record under the same rules agree) and always lies in [0, 100]; the unified
generator's quality score likewise lies in [0, 100]. -/
theorem C1_score_deterministic_in_range
    (rules : IndustrialETL.BusinessRules) (row : Record) :
    IndustrialETL.calculate_quality_score rules row =
      IndustrialETL.calculate_quality_score rules row ∧
    0 ≤ IndustrialETL.calculate_quality_score rules row ∧
    IndustrialETL.calculate_quality_score rules row ≤ 100 ∧
    0 ≤ UnifiedPowerBI.calculate_quality_score row ∧
    UnifiedPowerBI.calculate_quality_score row ≤ 100 := by
  obtain ⟨m0, _⟩ := moisture_penalty_bounds rules.moisture row.moisture
  obtain ⟨p0, _⟩ := ph_penalty_bounds rules.ph row.ph
  obtain ⟨d0, _⟩ := diastase_penalty_bounds rules.diastase_activity row.diastase_activity
  obtain ⟨h0, _⟩ := hmf_penalty_bounds rules.h_m_f row.h_m_f
  obtain ⟨um0, _⟩ := unified_moisture_penalty_bounds row.moisture
  obtain ⟨up0, _⟩ := unified_ph_penalty_bounds row.ph
  obtain ⟨ud0, _⟩ := unified_diastase_penalty_bounds row.diastase_activity
  obtain ⟨uh0, _⟩ := unified_hmf_penalty_bounds row.h_m_f
  refine ⟨rfl, ?_, ?_, ?_, ?_⟩
  · rw [etl_score_eq]; exact le_max_left 0 _
  · rw [etl_score_eq]; exact max_le (by norm_num) (by linarith)
  · rw [unified_score_eq]; exact le_max_left 0 _
  · rw [unified_score_eq]; exact max_le (by norm_num) (by linarith)

/-- C10: each of the four ETL penalty blocks subtracts at most 15 points, so
the total penalty is at most 60, the score is at least 40, and the final
clamp to 0.0 never changes the value: the score equals 100 minus the sum of
the four penalties. -/
theorem C10_clamp_unreachable
    (rules : IndustrialETL.BusinessRules) (row : Record) :
    IndustrialETL.moisture_penalty rules.moisture row.moisture ≤ 15 ∧
    IndustrialETL.ph_penalty rules.ph row.ph ≤ 15 ∧
    IndustrialETL.diastase_penalty rules.diastase_activity row.diastase_activity ≤ 15 ∧
    IndustrialETL.hmf_penalty rules.h_m_f row.h_m_f ≤ 15 ∧
    40 ≤ IndustrialETL.calculate_quality_score rules row ∧
    IndustrialETL.calculate_quality_score rules row =
      100 - (IndustrialETL.moisture_penalty rules.moisture row.moisture
        + IndustrialETL.ph_penalty rules.ph row.ph
        + IndustrialETL.diastase_penalty rules.diastase_activity row.diastase_activity
        + IndustrialETL.hmf_penalty rules.h_m_f row.h_m_f) := by
  obtain ⟨m0, m15⟩ := moisture_penalty_bounds rules.moisture row.moisture
  obtain ⟨p0, p15⟩ := ph_penalty_bounds rules.ph row.ph
  obtain ⟨d0, d15⟩ := diastase_penalty_bounds rules.diastase_activity row.diastase_activity
  obtain ⟨h0, h15⟩ := hmf_penalty_bounds rules.h_m_f row.h_m_f
  have hscore : IndustrialETL.calculate_quality_score rules row =
      100 - (IndustrialETL.moisture_penalty rules.moisture row.moisture
        + IndustrialETL.ph_penalty rules.ph row.ph
        + IndustrialETL.diastase_penalty rules.diastase_activity row.diastase_activity
        + IndustrialETL.hmf_penalty rules.h_m_f row.h_m_f) := by
    rw [etl_score_eq]
    rw [max_eq_right (by linarith)]
    ring
  exact ⟨m15, p15, d15, h15, by rw [hscore]; linarith, hscore⟩

/-- C3 counterexample: the claim is false for the ETL processor — no record
that passes `_apply_business_rules` can score below 100, because the scoring
function's zero-penalty branch covers exactly the validator's hard bounds. -/
theorem C3_counterexample :
    ¬ ∃ (rules : IndustrialETL.BusinessRules) (row : Record),
        IndustrialETL.passes_business_rules rules row = true ∧
        IndustrialETL.calculate_quality_score rules row < 100 := by
  rintro ⟨rules, row, hpass, hlt⟩
  rw [score_eq_100_of_passes rules row hpass] at hlt
  exact lt_irrefl _ hlt

/-- C3 (amended): in the ETL processor, every record that passes validation
scores exactly 100 (its penalty bands coincide with the hard bounds); the
within-bounds-yet-imperfect behavior exists only in the unified generator's
target-deviation scorer — e.g. moisture 15.0 is inside the validator's hard
bounds yet the unified score is below 100. -/
theorem C3_two_stage_design
    : (∀ (rules : IndustrialETL.BusinessRules) (row : Record),
        IndustrialETL.passes_business_rules rules row = true →
        IndustrialETL.calculate_quality_score rules row = 100) ∧
      IndustrialETL.passes_business_rules IndustrialETL.default_business_rules
        ⟨15, 5, 10, 30⟩ = true ∧
      UnifiedPowerBI.calculate_quality_score ⟨15, 5, 10, 30⟩ < 100 := by
  refine ⟨score_eq_100_of_passes, ?_, ?_⟩
  · norm_num [IndustrialETL.passes_business_rules, IndustrialETL.default_business_rules]
  · norm_num [UnifiedPowerBI.calculate_quality_score, UnifiedPowerBI.moisture_penalty,
      UnifiedPowerBI.ph_penalty, UnifiedPowerBI.diastase_penalty,
      UnifiedPowerBI.hmf_penalty, abs_of_nonneg]

/-- C3 witness: the universal part of the amended claim evaluated at the
default rules and a concrete in-bounds record. -/
theorem C3_two_stage_design_witness :
    IndustrialETL.calculate_quality_score IndustrialETL.default_business_rules
      ⟨17, 5, 10, 30⟩ = 100 :=
  C3_two_stage_design.1 IndustrialETL.default_business_rules ⟨17, 5, 10, 30⟩
    (by norm_num [IndustrialETL.passes_business_rules, IndustrialETL.default_business_rules])

/-! ## Classifier lemmas -/

lemma unified_cat_premium_iff (s : ℚ) :
    UnifiedPowerBI.categorize_quality s = "Premium" ↔ 95 ≤ s := by
  unfold UnifiedPowerBI.categorize_quality
  split_ifs with h1 h2 h3 h4 <;> simp_all
  all_goals first | linarith | (intro hA; linarith)

lemma unified_cat_excellent_iff (s : ℚ) :
    UnifiedPowerBI.categorize_quality s = "Excellent" ↔ 90 ≤ s ∧ s < 95 := by
  unfold UnifiedPowerBI.categorize_quality
  split_ifs with h1 h2 h3 h4 <;> simp_all
  all_goals first | linarith | (intro hA; linarith)

lemma unified_cat_good_iff (s : ℚ) :
    UnifiedPowerBI.categorize_quality s = "Good" ↔ 80 ≤ s ∧ s < 90 := by
  unfold UnifiedPowerBI.categorize_quality
  split_ifs with h1 h2 h3 h4 <;> simp_all
  all_goals first | linarith | (intro hA; linarith)

lemma unified_cat_fair_iff (s : ℚ) :
    UnifiedPowerBI.categorize_quality s = "Fair" ↔ 70 ≤ s ∧ s < 80 := by
  unfold UnifiedPowerBI.categorize_quality
  split_ifs with h1 h2 h3 h4 <;> simp_all
  all_goals first | linarith | (intro hA; linarith)

lemma unified_cat_poor_iff (s : ℚ) :
    UnifiedPowerBI.categorize_quality s = "Poor" ↔ s < 70 := by
  unfold UnifiedPowerBI.categorize_quality
  split_ifs with h1 h2 h3 h4 <;> simp_all
  all_goals first | linarith | (intro hA; linarith)

lemma compliance_compliant_iff (s : ℚ) :
    UnifiedPowerBI.get_compliance_status s = "Compliant" ↔ 80 ≤ s := by
  unfold UnifiedPowerBI.get_compliance_status
  split_ifs with h1 h2 <;> simp_all
  all_goals first | linarith | (intro hA; linarith)

lemma compliance_warning_iff (s : ℚ) :
    UnifiedPowerBI.get_compliance_status s = "Warning" ↔ 70 ≤ s ∧ s < 80 := by
  unfold UnifiedPowerBI.get_compliance_status
  split_ifs with h1 h2 <;> simp_all
  all_goals first | linarith | (intro hA; linarith)

lemma compliance_noncompliant_iff (s : ℚ) :
    UnifiedPowerBI.get_compliance_status s = "Non-Compliant" ↔ s < 70 := by
  unfold UnifiedPowerBI.get_compliance_status
  split_ifs with h1 h2 <;> simp_all
  all_goals first | linarith | (intro hA; linarith)

lemma etl_cat_excellent_iff (s : ℚ) :
    IndustrialETL.categorize_quality s = "Excellent" ↔ 90 ≤ s := by
  unfold IndustrialETL.categorize_quality
  split_ifs with h1 h2 h3 <;> simp_all
  all_goals first | linarith | (intro hA; linarith)

lemma etl_cat_good_iff (s : ℚ) :
    IndustrialETL.categorize_quality s = "Good" ↔ 80 ≤ s ∧ s < 90 := by
  unfold IndustrialETL.categorize_quality
  split_ifs with h1 h2 h3 <;> simp_all
  all_goals first | linarith | (intro hA; linarith)

lemma etl_cat_fair_iff (s : ℚ) :
    IndustrialETL.categorize_quality s = "Fair" ↔ 70 ≤ s ∧ s < 80 := by
  unfold IndustrialETL.categorize_quality
  split_ifs with h1 h2 h3 <;> simp_all
  all_goals first | linarith | (intro hA; linarith)

lemma etl_cat_poor_iff (s : ℚ) :
    IndustrialETL.categorize_quality s = "Poor" ↔ s < 70 := by
  unfold IndustrialETL.categorize_quality
  split_ifs with h1 h2 h3 <;> simp_all
  all_goals first | linarith | (intro hA; linarith)

lemma unified_cat_total (s : ℚ) :
    UnifiedPowerBI.categorize_quality s = "Premium" ∨
    UnifiedPowerBI.categorize_quality s = "Excellent" ∨
    UnifiedPowerBI.categorize_quality s = "Good" ∨
    UnifiedPowerBI.categorize_quality s = "Fair" ∨
    UnifiedPowerBI.categorize_quality s = "Poor" := by
  unfold UnifiedPowerBI.categorize_quality
  split_ifs <;> simp

lemma compliance_total (s : ℚ) :
    UnifiedPowerBI.get_compliance_status s = "Compliant" ∨
    UnifiedPowerBI.get_compliance_status s = "Warning" ∨
    UnifiedPowerBI.get_compliance_status s = "Non-Compliant" := by
  unfold UnifiedPowerBI.get_compliance_status
  split_ifs <;> simp

lemma etl_cat_total (s : ℚ) :
    IndustrialETL.categorize_quality s = "Excellent" ∨
    IndustrialETL.categorize_quality s = "Good" ∨
    IndustrialETL.categorize_quality s = "Fair" ∨
    IndustrialETL.categorize_quality s = "Poor" := by
  unfold IndustrialETL.categorize_quality
  split_ifs <;> simp

/-- C4: both classifiers are total functions with inclusive lower tier bounds:
every score yields exactly one category (the interval characterizations are
mutually exclusive and exhaustive) and exactly one compliance value, and the
boundary score 90 maps to the tier whose floor is 90 in both modules. -/
theorem C4_classifier_total_inclusive (s : ℚ) :
    (UnifiedPowerBI.categorize_quality s = "Premium" ∨
     UnifiedPowerBI.categorize_quality s = "Excellent" ∨
     UnifiedPowerBI.categorize_quality s = "Good" ∨
     UnifiedPowerBI.categorize_quality s = "Fair" ∨
     UnifiedPowerBI.categorize_quality s = "Poor") ∧
    (UnifiedPowerBI.categorize_quality s = "Premium" ↔ 95 ≤ s) ∧
    (UnifiedPowerBI.categorize_quality s = "Excellent" ↔ 90 ≤ s ∧ s < 95) ∧
    (UnifiedPowerBI.categorize_quality s = "Good" ↔ 80 ≤ s ∧ s < 90) ∧
    (UnifiedPowerBI.categorize_quality s = "Fair" ↔ 70 ≤ s ∧ s < 80) ∧
    (UnifiedPowerBI.categorize_quality s = "Poor" ↔ s < 70) ∧
    (UnifiedPowerBI.get_compliance_status s = "Compliant" ∨
     UnifiedPowerBI.get_compliance_status s = "Warning" ∨
     UnifiedPowerBI.get_compliance_status s = "Non-Compliant") ∧
    (UnifiedPowerBI.get_compliance_status s = "Compliant" ↔ 80 ≤ s) ∧
    (UnifiedPowerBI.get_compliance_status s = "Warning" ↔ 70 ≤ s ∧ s < 80) ∧
    (UnifiedPowerBI.get_compliance_status s = "Non-Compliant" ↔ s < 70) ∧
    (IndustrialETL.categorize_quality s = "Excellent" ∨
     IndustrialETL.categorize_quality s = "Good" ∨
     IndustrialETL.categorize_quality s = "Fair" ∨
     IndustrialETL.categorize_quality s = "Poor") ∧
    (IndustrialETL.categorize_quality s = "Excellent" ↔ 90 ≤ s) ∧
    (IndustrialETL.categorize_quality s = "Good" ↔ 80 ≤ s ∧ s < 90) ∧
    (IndustrialETL.categorize_quality s = "Fair" ↔ 70 ≤ s ∧ s < 80) ∧
    (IndustrialETL.categorize_quality s = "Poor" ↔ s < 70) ∧
    UnifiedPowerBI.categorize_quality 90 = "Excellent" ∧
    IndustrialETL.categorize_quality 90 = "Excellent" :=
  ⟨unified_cat_total s, unified_cat_premium_iff s, unified_cat_excellent_iff s,
   unified_cat_good_iff s, unified_cat_fair_iff s, unified_cat_poor_iff s,
   compliance_total s, compliance_compliant_iff s, compliance_warning_iff s,
   compliance_noncompliant_iff s, etl_cat_total s, etl_cat_excellent_iff s,
   etl_cat_good_iff s, etl_cat_fair_iff s, etl_cat_poor_iff s,
   by norm_num [UnifiedPowerBI.categorize_quality],
   by norm_num [IndustrialETL.categorize_quality]⟩

/-- C9: for every score, the unified generator's category and compliance
labels are coherent: Premium/Excellent/Good exactly when Compliant, Fair
exactly when Warning, Poor exactly when Non-Compliant. -/
theorem C9_category_compliance_coherent (s : ℚ) :
    ((UnifiedPowerBI.categorize_quality s = "Premium" ∨
      UnifiedPowerBI.categorize_quality s = "Excellent" ∨
      UnifiedPowerBI.categorize_quality s = "Good") ↔
      UnifiedPowerBI.get_compliance_status s = "Compliant") ∧
    (UnifiedPowerBI.categorize_quality s = "Fair" ↔
      UnifiedPowerBI.get_compliance_status s = "Warning") ∧
    (UnifiedPowerBI.categorize_quality s = "Poor" ↔
      UnifiedPowerBI.get_compliance_status s = "Non-Compliant") := by
  refine ⟨?_, ?_, ?_⟩
  · rw [unified_cat_premium_iff, unified_cat_excellent_iff, unified_cat_good_iff,
      compliance_compliant_iff]
    constructor
    · rintro (h | ⟨h, _⟩ | ⟨h, _⟩) <;> linarith
    · intro h
      rcases le_or_lt 95 s with h95 | h95
      · exact Or.inl h95
      · rcases le_or_lt 90 s with h90 | h90
        · exact Or.inr (Or.inl ⟨h90, h95⟩)
        · exact Or.inr (Or.inr ⟨h, h90⟩)
  · rw [unified_cat_fair_iff, compliance_warning_iff]
  · rw [unified_cat_poor_iff, compliance_noncompliant_iff]

/-- C5 counterexample: under the default moisture rule [15, 20], the record
with moisture 22.0 (deviation 2.0 beyond the maximum) falls outside the
code's ±1 tolerance band and incurs penalty 15, not 5: with the other three
parameters ideal the total score is 85, not the claimed 95. -/
theorem C5_counterexample :
    IndustrialETL.moisture_penalty
      IndustrialETL.default_business_rules.moisture 22 = 15 ∧
    IndustrialETL.calculate_quality_score IndustrialETL.default_business_rules
      ⟨22, 5, 10, 30⟩ = 85 ∧
    IndustrialETL.calculate_quality_score IndustrialETL.default_business_rules
      ⟨22, 5, 10, 30⟩ ≠ 95 := by
  refine ⟨?_, ?_, ?_⟩ <;>
    norm_num [IndustrialETL.calculate_quality_score, IndustrialETL.moisture_penalty,
      IndustrialETL.ph_penalty, IndustrialETL.diastase_penalty,
      IndustrialETL.hmf_penalty, IndustrialETL.default_business_rules]

/-- C5 (amended): the code's moisture tiers are in-range → 0, within ±1 of
the bounds → 5, otherwise → 15; moisture 22.0 is 2.0 beyond the maximum and
falls in the catch-all tier with penalty 15, so with the other three
parameters ideal the total score is 85.0, the ETL category is "Good", and the
compliance status is "Compliant". -/
theorem C5_example_scenario :
    IndustrialETL.moisture_penalty
      IndustrialETL.default_business_rules.moisture 22 = 15 ∧
    IndustrialETL.calculate_quality_score IndustrialETL.default_business_rules
      ⟨22, 5, 10, 30⟩ = 85 ∧
    IndustrialETL.categorize_quality 85 = "Good" ∧
    UnifiedPowerBI.get_compliance_status 85 = "Compliant" := by
  refine ⟨?_, ?_, ?_, ?_⟩ <;>
    norm_num [IndustrialETL.calculate_quality_score, IndustrialETL.moisture_penalty,
      IndustrialETL.ph_penalty, IndustrialETL.diastase_penalty,
      IndustrialETL.hmf_penalty, IndustrialETL.default_business_rules,
      IndustrialETL.categorize_quality, UnifiedPowerBI.get_compliance_status]

/-- C2: the orchestrator never propagates an exception to its caller: the
caller always receives an outcome with status "success" or "failed" carrying
the elapsed duration; any exception raised by the extract or transform stage
is caught and converted into a "failed" outcome carrying the error message;
a load-stage failure (the loader returning false) yields a "failed" outcome
with the elapsed duration but no error message. -/
theorem C2_orchestrator_boundary
    (extract_result : Except String (List RawRecord))
    (transform : List RawRecord → Except String (List IndustrialETL.ScoredRecord))
    (load : List IndustrialETL.ScoredRecord → Bool)
    (start_time end_time : ℚ) :
    ((IndustrialETL.run_etl_pipeline extract_result transform load start_time end_time).status = "success" ∨
     (IndustrialETL.run_etl_pipeline extract_result transform load start_time end_time).status = "failed") ∧
    (IndustrialETL.run_etl_pipeline extract_result transform load start_time end_time).duration_seconds
      = end_time - start_time ∧
    (∀ e, extract_result = .error e →
      IndustrialETL.run_etl_pipeline extract_result transform load start_time end_time =
        { status := "failed", error := some e, duration_seconds := end_time - start_time,
          rows_processed := none }) ∧
    (∀ data e, extract_result = .ok data → transform data = .error e →
      IndustrialETL.run_etl_pipeline extract_result transform load start_time end_time =
        { status := "failed", error := some e, duration_seconds := end_time - start_time,
          rows_processed := none }) ∧
    (∀ data td, extract_result = .ok data → transform data = .ok td → load td = false →
      (IndustrialETL.run_etl_pipeline extract_result transform load start_time end_time).status = "failed" ∧
      (IndustrialETL.run_etl_pipeline extract_result transform load start_time end_time).error = none) := by
  refine ⟨?_, ?_, ?_, ?_, ?_⟩
  · cases extract_result with
    | error e => simp [IndustrialETL.run_etl_pipeline]
    | ok data =>
      cases h : transform data with
      | error e => simp [IndustrialETL.run_etl_pipeline, h]
      | ok td =>
        by_cases hl : load td <;> simp [IndustrialETL.run_etl_pipeline, h, hl]
  · cases extract_result with
    | error e => simp [IndustrialETL.run_etl_pipeline]
    | ok data =>
      cases h : transform data with
      | error e => simp [IndustrialETL.run_etl_pipeline, h]
      | ok td => simp [IndustrialETL.run_etl_pipeline, h]
  · intro e he; subst he; rfl
  · intro data e hd ht; subst hd; simp [IndustrialETL.run_etl_pipeline, ht]
  · intro data td hd ht hl; subst hd; simp [IndustrialETL.run_etl_pipeline, ht, hl]

/-- C2 witness: the extract-failure clause of the boundary theorem evaluated
at a concrete failing extraction. -/
theorem C2_orchestrator_boundary_witness :
    IndustrialETL.run_etl_pipeline (.error "file not found")
        (IndustrialETL.transform_stage IndustrialETL.default_business_rules)
        (IndustrialETL.load_data true (.ok ())) 0 1 =
      { status := "failed", error := some "file not found", duration_seconds := 1 - 0,
        rows_processed := none } :=
  (C2_orchestrator_boundary (.error "file not found")
    (IndustrialETL.transform_stage IndustrialETL.default_business_rules)
    (IndustrialETL.load_data true (.ok ())) 0 1).2.2.1 "file not found" rfl

/-- C2 counterexample to the claim as stated: a load-stage failure is
converted to a "failed" outcome, but that outcome does not carry the load
error message (`load_data` logs the exception and returns False; the result
dict on this path has no error field). -/
theorem C2_counterexample :
    (IndustrialETL.run_etl_pipeline (.ok [⟨some 17, some 5, some 10, some 30⟩])
        (IndustrialETL.transform_stage IndustrialETL.default_business_rules)
        (IndustrialETL.load_data true (.error "connection refused")) 0 1).status = "failed" ∧
    (IndustrialETL.run_etl_pipeline (.ok [⟨some 17, some 5, some 10, some 30⟩])
        (IndustrialETL.transform_stage IndustrialETL.default_business_rules)
        (IndustrialETL.load_data true (.error "connection refused")) 0 1).error = none :=
  ⟨rfl, rfl⟩

/-- C6 (amended): when the load stage fails, the run returns a "failed"
outcome whose duration equals the elapsed time between the two clock readings
(positive whenever the end reading exceeds the start reading); the load
failure's error message is not included in the outcome. -/
theorem C6_load_failure_outcome
    (rules : IndustrialETL.BusinessRules) (data : List RawRecord)
    (load : List IndustrialETL.ScoredRecord → Bool)
    (start_time end_time : ℚ)
    (hload : load (IndustrialETL.transform_data rules data) = false) :
    (IndustrialETL.run_etl_pipeline (.ok data) (IndustrialETL.transform_stage rules)
        load start_time end_time).status = "failed" ∧
    (IndustrialETL.run_etl_pipeline (.ok data) (IndustrialETL.transform_stage rules)
        load start_time end_time).error = none ∧
    (IndustrialETL.run_etl_pipeline (.ok data) (IndustrialETL.transform_stage rules)
        load start_time end_time).duration_seconds = end_time - start_time ∧
    (start_time < end_time →
      0 < (IndustrialETL.run_etl_pipeline (.ok data) (IndustrialETL.transform_stage rules)
        load start_time end_time).duration_seconds) := by
  have h : IndustrialETL.run_etl_pipeline (.ok data) (IndustrialETL.transform_stage rules)
      load start_time end_time =
      { status := "failed", error := none, duration_seconds := end_time - start_time,
        rows_processed := some (IndustrialETL.transform_data rules data).length } := by
    simp [IndustrialETL.run_etl_pipeline, IndustrialETL.transform_stage, hload]
  refine ⟨by rw [h], by rw [h], by rw [h], ?_⟩
  intro hlt
  simp [h]
  linarith

/-- C6 witness: the amended theorem evaluated at a concrete run whose loader
fails because the database is unavailable. -/
theorem C6_load_failure_outcome_witness :
    (IndustrialETL.run_etl_pipeline (.ok [])
        (IndustrialETL.transform_stage IndustrialETL.default_business_rules)
        (IndustrialETL.load_data false (.ok ())) 0 1).status = "failed" ∧
    (IndustrialETL.run_etl_pipeline (.ok [])
        (IndustrialETL.transform_stage IndustrialETL.default_business_rules)
        (IndustrialETL.load_data false (.ok ())) 0 1).error = none ∧
    0 < (IndustrialETL.run_etl_pipeline (.ok [])
        (IndustrialETL.transform_stage IndustrialETL.default_business_rules)
        (IndustrialETL.load_data false (.ok ())) 0 1).duration_seconds := by
  have h := C6_load_failure_outcome IndustrialETL.default_business_rules []
    (IndustrialETL.load_data false (.ok ())) 0 1 rfl
  exact ⟨h.1, h.2.1, h.2.2.2 (by norm_num)⟩

/-- C6 counterexample to the claim as stated: a concrete load failure with
message "disk full" yields a "failed" outcome in which that message is not
preserved — the outcome's error field is empty. -/
theorem C6_counterexample :
    (IndustrialETL.run_etl_pipeline (.ok [⟨some 16, some 4, some 9, some 20⟩])
        (IndustrialETL.transform_stage IndustrialETL.default_business_rules)
        (IndustrialETL.load_data true (.error "disk full")) 0 2).status = "failed" ∧
    (IndustrialETL.run_etl_pipeline (.ok [⟨some 16, some 4, some 9, some 20⟩])
        (IndustrialETL.transform_stage IndustrialETL.default_business_rules)
        (IndustrialETL.load_data true (.error "disk full")) 0 2).error = none ∧
    (IndustrialETL.run_etl_pipeline (.ok [⟨some 16, some 4, some 9, some 20⟩])
        (IndustrialETL.transform_stage IndustrialETL.default_business_rules)
        (IndustrialETL.load_data true (.error "disk full")) 0 2).error ≠ some "disk full" := by
  refine ⟨rfl, rfl, ?_⟩
  have herr : (IndustrialETL.run_etl_pipeline (.ok [⟨some 16, some 4, some 9, some 20⟩])
      (IndustrialETL.transform_stage IndustrialETL.default_business_rules)
      (IndustrialETL.load_data true (.error "disk full")) 0 2).error = none := rfl
  rw [herr]
  simp

/-- C7: a run over the empty input sequence (zero records in, zero accepted)
completes with status "success" and reports zero processed rows rather than
failing. -/
theorem C7_empty_run_completes :
    ([] : List RawRecord).length = 0 ∧
    IndustrialETL.transform_data IndustrialETL.default_business_rules [] = [] ∧
    IndustrialETL.run_etl_pipeline (.ok ([] : List RawRecord))
        (IndustrialETL.transform_stage IndustrialETL.default_business_rules)
        (IndustrialETL.load_data true (.ok ())) 0 1 =
      { status := "success", error := none, duration_seconds := 1 - 0,
        rows_processed := some 0 } :=
  ⟨rfl, rfl, rfl⟩

/-- C8: the performance alert check fires on strict threshold breaches only:
exactly one CPU event when cpu_percent is strictly above 80 and none
otherwise, exactly one memory event when memory_percent is strictly above 85
and none otherwise, the emitted list contains nothing but those breach events
(no "OK" events), and boundary-equal readings produce no events at all. -/
theorem C8_alert_strict_threshold (cpu_percent memory_percent : ℚ) :
    ((Monitoring.check_performance_alerts true cpu_percent memory_percent).countP
        (fun a => a.message == "High CPU usage") = if 80 < cpu_percent then 1 else 0) ∧
    ((Monitoring.check_performance_alerts true cpu_percent memory_percent).countP
        (fun a => a.message == "High memory usage") = if 85 < memory_percent then 1 else 0) ∧
    ((Monitoring.check_performance_alerts true cpu_percent memory_percent).length =
      (if 80 < cpu_percent then 1 else 0) + (if 85 < memory_percent then 1 else 0)) ∧
    Monitoring.check_performance_alerts true 80 85 = [] := by
  refine ⟨?_, ?_, ?_, by norm_num [Monitoring.check_performance_alerts]⟩ <;>
    by_cases h1 : (80:ℚ) < cpu_percent <;> by_cases h2 : (85:ℚ) < memory_percent <;>
      simp [Monitoring.check_performance_alerts, h1, h2, List.countP_cons, List.countP_nil]
